import Mathlib

/-!
Shallow embedding of the core of the `arb-dashboard` repository
(`src/core/strategy.py` and `src/core/engine.py`).

Prices, fees and quantities are modelled as rationals (the Python code uses
floats; the claims are about the arithmetic formulas, which we state exactly).
Dictionaries coming from the Binance execution stream are modelled as records
of optional fields, mirroring `dict.get`.  Side effects (order submission to
the Lighter venue, logging) are modelled by returning explicit lists of
submissions and log entries.
-/

/-- Parameters of `ArbStrategy.__init__` (strategy.py, lines 7-10). -/
structure ArbStrategy where
  min_profit_pct : ℚ
  binance_fee_pct : ℚ
  lighter_fee_pct : ℚ
deriving DecidableEq

/-- The dictionary `{"bid": ..., "ask": ...}` returned by
`calculate_binance_maker_prices`. -/
structure MakerPrices where
  bid : ℚ
  ask : ℚ
deriving DecidableEq

/-- Embedding of `ArbStrategy.calculate_binance_maker_prices`
(strategy.py, lines 12-34): `ask` is `min_sell_price`, `bid` is
`max_buy_price`, exactly the two formulas of lines 25 and 29. -/
def ArbStrategy.calculate_binance_maker_prices (st : ArbStrategy)
    (lighter_bid lighter_ask : ℚ) : MakerPrices :=
  { bid := (lighter_bid * (1 - st.lighter_fee_pct - st.min_profit_pct)) / (1 + st.binance_fee_pct),
    ask := (lighter_ask * (1 + st.lighter_fee_pct + st.min_profit_pct)) / (1 - st.binance_fee_pct) }

/-- A Binance execution-report dictionary as read by
`get_hedge_order_details`: field `S` (side), field `l` (last filled
quantity), field `i` (order id).  Absent keys are `none`, mirroring
`dict.get`. -/
structure FillMsg where
  S : Option String
  l : Option ℚ
  i : Option Nat
deriving DecidableEq

/-- The dictionary `{"side": ..., "quantity": ...}` returned by
`get_hedge_order_details`. -/
structure HedgeDetails where
  side : String
  quantity : ℚ
deriving DecidableEq

/-- Embedding of `ArbStrategy.get_hedge_order_details` (strategy.py,
lines 36-50): `side = fill.get('S')`, `quantity = float(fill.get('l', 0))`,
`hedge_side = 'SELL' if side == 'BUY' else 'BUY'`. -/
def ArbStrategy.get_hedge_order_details (_st : ArbStrategy)
    (binance_fill : FillMsg) : HedgeDetails :=
  { side := if binance_fill.S = some "BUY" then "SELL" else "BUY",
    quantity := binance_fill.l.getD 0 }

/-- A resting Binance order as tracked in `TradeEngine.active_orders`. -/
structure OrderInfo where
  order_id : Nat
  price : ℚ
deriving DecidableEq

/-- The mutable state of `TradeEngine` (engine.py, lines 23-24):
`active_orders = {"bid": None, "ask": None}` and `is_running`. -/
structure EngineState where
  active_bid : Option OrderInfo
  active_ask : Option OrderInfo
  is_running : Bool
deriving DecidableEq

/-- Severity of a `logger` call. -/
inductive LogLevel
  | info
  | error
deriving DecidableEq

/-- The distinct log messages emitted by `TradeEngine`. -/
inductive LogTag
  | fillReceived    -- "Binance Fill Received: ..."
  | sendingHedge    -- "Sending Hedge Order to Lighter: ..."
  | hedgeResult     -- "Lighter Hedge Result: ..."
  | hedgeFatal      -- "FATAL: Failed to hedge on Lighter! ..."
  | mainLoopError   -- "Error in main loop: ..."
deriving DecidableEq

/-- One `logger.<level>(<message>)` call. -/
structure LogEntry where
  level : LogLevel
  tag : LogTag
deriving DecidableEq

/-- An order action against the Binance venue (the spec's
`Place`/`Replace`; the engine code never emits either). -/
inductive OrderAction
  | place (price : ℚ)
  | replace (old_id : Nat) (price : ℚ)
deriving DecidableEq

/-- Embedding of `TradeEngine.manage_binance_order` (engine.py,
lines 65-68).  The body is `pass`: no state change, no venue action. -/
def TradeEngine.manage_binance_order (s : EngineState) (_side : String)
    (_price : ℚ) (_order_key : String) : EngineState × List OrderAction :=
  (s, [])

/-- The Lighter order book as formatted by
`LighterClientWrapper.get_orderbook`: `{'bids': [[price, qty], ...],
'asks': [[price, qty], ...]}`.  A missing book is `none` at the call
site. -/
structure Orderbook where
  bids : List (ℚ × ℚ)
  asks : List (ℚ × ℚ)
deriving DecidableEq

/-- Embedding of `TradeEngine.update_quotes` (engine.py, lines 45-63).
If the book is absent or one side is empty (`not ob or not
ob.get('asks') or not ob.get('bids')`) the cycle returns early with no
targets and no actions; otherwise it computes the target prices from the
tops of book and calls `manage_binance_order` for each side.  Returns
(new state, computed targets if any, venue actions). -/
def TradeEngine.update_quotes (st : ArbStrategy) (s : EngineState)
    (ob : Option Orderbook) : EngineState × Option MakerPrices × List OrderAction :=
  match ob with
  | none => (s, none, [])
  | some b =>
    match b.bids, b.asks with
    | [], _ => (s, none, [])
    | _ :: _, [] => (s, none, [])
    | bb :: _, ba :: _ =>
      let best_ask := ba.1
      let best_bid := bb.1
      let targets := st.calculate_binance_maker_prices best_bid best_ask
      let r1 := TradeEngine.manage_binance_order s "BUY" targets.bid "bid"
      let r2 := TradeEngine.manage_binance_order r1.1 "SELL" targets.ask "ask"
      (r2.1, some targets, r1.2 ++ r2.2)

/-- A hedge order submitted to Lighter via `create_order`. -/
structure HedgeSubmission where
  side : String
  quantity : ℚ
deriving DecidableEq

/-- Embedding of `TradeEngine.on_binance_fill` (engine.py, lines 70-90).
`hedge_ok` stands for whether `lighter.create_order` succeeds or raises.
In both cases exactly one hedge order is submitted (the call is
attempted unconditionally); on failure the exception is caught and a
`logger.error("FATAL: ...")` entry is emitted; the engine state is
untouched either way (no dedup record, no retained intent). -/
def TradeEngine.on_binance_fill (st : ArbStrategy) (s : EngineState)
    (fill_msg : FillMsg) (hedge_ok : Bool) :
    EngineState × List HedgeSubmission × List LogEntry :=
  let hedge_params := st.get_hedge_order_details fill_msg
  (s, [⟨hedge_params.side, hedge_params.quantity⟩],
    if hedge_ok then
      [⟨.info, .fillReceived⟩, ⟨.info, .sendingHedge⟩, ⟨.info, .hedgeResult⟩]
    else
      [⟨.info, .fillReceived⟩, ⟨.info, .sendingHedge⟩, ⟨.error, .hedgeFatal⟩])

/-- A sequence of fill-event deliveries (each with its hedge outcome)
processed one by one by `on_binance_fill`; collects all hedge
submissions. -/
def TradeEngine.processFills (st : ArbStrategy) (s : EngineState) :
    List (FillMsg × Bool) → EngineState × List HedgeSubmission
  | [] => (s, [])
  | (m, ok) :: rest =>
    let r := TradeEngine.on_binance_fill st s m ok
    let rest_r := TradeEngine.processFills st r.1 rest
    (rest_r.1, r.2.1 ++ rest_r.2)

/-- Outcome of one iteration body of the main loop: either
`update_quotes` ran and saw the given order book, or it raised an
exception. -/
inductive CycleOutcome
  | ok (ob : Option Orderbook)
  | raised
deriving DecidableEq

/-- State of the `while self.is_running` loop of `TradeEngine.start`. -/
structure LoopState where
  engine : EngineState
  iterations : Nat
  logs : List LogEntry
deriving DecidableEq

/-- One iteration of the main loop (engine.py, lines 38-43): if running,
attempt `update_quotes`; an exception is caught at the iteration
boundary, logged via `logger.error` and the loop continues. -/
def TradeEngine.loop_step (st : ArbStrategy) (s : LoopState)
    (o : CycleOutcome) : LoopState :=
  if s.engine.is_running then
    match o with
    | .ok ob =>
      { engine := (TradeEngine.update_quotes st s.engine ob).1,
        iterations := s.iterations + 1, logs := s.logs }
    | .raised =>
      { engine := s.engine, iterations := s.iterations + 1,
        logs := s.logs ++ [⟨.error, .mainLoopError⟩] }
  else s

/-- The main loop of `TradeEngine.start` run for `n` iterations against a
schedule of cycle outcomes; `start` first sets `is_running = True`
(engine.py, line 27). -/
def TradeEngine.run_loop (st : ArbStrategy) (init : EngineState)
    (outcomes : Nat → CycleOutcome) : Nat → LoopState
  | 0 => { engine := { init with is_running := true }, iterations := 0, logs := [] }
  | n + 1 => TradeEngine.loop_step st (TradeEngine.run_loop st init outcomes n) (outcomes n)

/-- Helper: `update_quotes` never changes the engine state (its only
callee, `manage_binance_order`, is a placeholder). -/
theorem update_quotes_state_eq (st : ArbStrategy) (s : EngineState)
    (ob : Option Orderbook) : (TradeEngine.update_quotes st s ob).1 = s := by
  match ob with
  | none => rfl
  | some b =>
    match hb : b.bids, ha : b.asks with
    | [], _ => simp [TradeEngine.update_quotes, hb]
    | _ :: _, [] => simp [TradeEngine.update_quotes, hb, ha]
    | bb :: _, ba :: _ =>
      simp [TradeEngine.update_quotes, hb, ha, TradeEngine.manage_binance_order]

/-- Claim C1: the quote calculator returns exactly
`ask_target = A * (1 + f_t + m) / (1 - f_m)` and
`bid_target = B * (1 - f_t - m) / (1 + f_m)`, as a pure deterministic
function of the reference best bid `B`, best ask `A`, maker fee `f_m`
(`binance_fee_pct`), taker fee `f_t` (`lighter_fee_pct`) and minimum
margin `m` (`min_profit_pct`), with no side effects. -/
theorem C1_maker_price_formulas (B A f_m f_t m : ℚ) :
    ArbStrategy.calculate_binance_maker_prices ⟨m, f_m, f_t⟩ B A =
      { bid := B * (1 - f_t - m) / (1 + f_m),
        ask := A * (1 + f_t + m) / (1 - f_m) } := rfl

/-- Claim C4 counterexample: with `bid = 1 < 2 = ask` and
`f_m = f_t = m = 0` (all in `[0,1)`), the computed targets are
`ask_target = 2` and `bid_target = 1`: the strict inequalities
`ask_target > ask` and `bid_target < bid` both fail. -/
theorem C4_counterexample :
    (1 : ℚ) < 2 ∧ (0 : ℚ) ≤ 0 ∧ (0 : ℚ) < 1 ∧
    (ArbStrategy.calculate_binance_maker_prices ⟨0, 0, 0⟩ 1 2).ask = 2 ∧
    ¬ (ArbStrategy.calculate_binance_maker_prices ⟨0, 0, 0⟩ 1 2).ask > 2 ∧
    (ArbStrategy.calculate_binance_maker_prices ⟨0, 0, 0⟩ 1 2).bid = 1 ∧
    ¬ (ArbStrategy.calculate_binance_maker_prices ⟨0, 0, 0⟩ 1 2).bid < 1 := by
  norm_num [ArbStrategy.calculate_binance_maker_prices]

/-- Claim C4, amended: for `0 < bid < ask`, fees and margin each in
`[0,1)` and not all zero (`0 < f_m + f_t + m`), the maker targets never
cross the reference top of book: `ask_target > ask` and
`bid_target < bid`. -/
theorem C4_targets_never_cross (B A f_m f_t m : ℚ)
    (hB : 0 < B) (hBA : B < A)
    (hfm0 : 0 ≤ f_m) (hfm1 : f_m < 1)
    (hft0 : 0 ≤ f_t) (hft1 : f_t < 1)
    (hm0 : 0 ≤ m) (hm1 : m < 1)
    (hsum : 0 < f_m + f_t + m) :
    (ArbStrategy.calculate_binance_maker_prices ⟨m, f_m, f_t⟩ B A).ask > A ∧
    (ArbStrategy.calculate_binance_maker_prices ⟨m, f_m, f_t⟩ B A).bid < B := by
  have hA : 0 < A := lt_trans hB hBA
  constructor
  · show A < A * (1 + f_t + m) / (1 - f_m)
    rw [lt_div_iff (by linarith : (0 : ℚ) < 1 - f_m)]
    nlinarith [mul_pos hA hsum]
  · show B * (1 - f_t - m) / (1 + f_m) < B
    rw [div_lt_iff (by linarith : (0 : ℚ) < 1 + f_m)]
    nlinarith [mul_pos hB hsum]

/-- Witness for C4: concrete instance `bid = 100`, `ask = 100.1`,
`f_m = f_t = m = 0.001`. -/
theorem C4_targets_never_cross_witness :
    (ArbStrategy.calculate_binance_maker_prices
        ⟨1/1000, 1/1000, 1/1000⟩ 100 (1001/10)).ask > 1001/10 ∧
    (ArbStrategy.calculate_binance_maker_prices
        ⟨1/1000, 1/1000, 1/1000⟩ 100 (1001/10)).bid < 100 :=
  C4_targets_never_cross 100 (1001/10) (1/1000) (1/1000) (1/1000)
    (by norm_num) (by norm_num) (by norm_num) (by norm_num) (by norm_num)
    (by norm_num) (by norm_num) (by norm_num) (by norm_num)

/-- Claim C7 counterexample: on `bid = 100.00`, `ask = 100.10`,
`f_m = f_t = m = 0.001` the calculator returns exactly
`ask_target = 167167/1665 ≈ 100.4006` and
`bid_target = 99800/1001 ≈ 99.7003`; neither is within `0.05` of the
claimed approximations `100.30` and `99.80`. -/
theorem C7_counterexample :
    (ArbStrategy.calculate_binance_maker_prices
        ⟨1/1000, 1/1000, 1/1000⟩ 100 (1001/10)).ask = 167167/1665 ∧
    ¬ |(167167/1665 : ℚ) - 1003/10| ≤ 1/20 ∧
    (ArbStrategy.calculate_binance_maker_prices
        ⟨1/1000, 1/1000, 1/1000⟩ 100 (1001/10)).bid = 99800/1001 ∧
    ¬ |(99800/1001 : ℚ) - 998/10| ≤ 1/20 := by
  constructor
  · norm_num [ArbStrategy.calculate_binance_maker_prices]
  constructor
  · rw [abs_le]; norm_num
  constructor
  · norm_num [ArbStrategy.calculate_binance_maker_prices]
  · rw [abs_le]; norm_num

/-- Claim C7, amended: on `bid = 100.00`, `ask = 100.10`,
`f_m = f_t = m = 0.001` the calculator returns exactly
`ask_target = 100.10 * 1.002 / 0.999 = 167167/1665 ≈ 100.40` and
`bid_target = 100.00 * 0.998 / 1.001 = 99800/1001 ≈ 99.70` (each within
`0.01` of the stated approximation). -/
theorem C7_scenario_values :
    (ArbStrategy.calculate_binance_maker_prices
        ⟨1/1000, 1/1000, 1/1000⟩ 100 (1001/10)).ask
      = (1001/10 : ℚ) * (1002/1000) / (999/1000) ∧
    (ArbStrategy.calculate_binance_maker_prices
        ⟨1/1000, 1/1000, 1/1000⟩ 100 (1001/10)).ask = 167167/1665 ∧
    |(167167/1665 : ℚ) - 1004/10| ≤ 1/100 ∧
    (ArbStrategy.calculate_binance_maker_prices
        ⟨1/1000, 1/1000, 1/1000⟩ 100 (1001/10)).bid
      = (100 : ℚ) * (998/1000) / (1001/1000) ∧
    (ArbStrategy.calculate_binance_maker_prices
        ⟨1/1000, 1/1000, 1/1000⟩ 100 (1001/10)).bid = 99800/1001 ∧
    |(99800/1001 : ℚ) - 997/10| ≤ 1/100 := by
  refine ⟨?_, ?_, ?_, ?_, ?_, ?_⟩
  · norm_num [ArbStrategy.calculate_binance_maker_prices]
  · norm_num [ArbStrategy.calculate_binance_maker_prices]
  · rw [abs_le]; norm_num
  · norm_num [ArbStrategy.calculate_binance_maker_prices]
  · norm_num [ArbStrategy.calculate_binance_maker_prices]
  · rw [abs_le]; norm_num

/-- Claim C2 counterexample: delivering the same fill event (same order
id `i = 7`) twice to `on_binance_fill` submits two hedge orders, not at
most one: the handler keeps no dedup record. -/
theorem C2_counterexample :
    ((TradeEngine.processFills ⟨1/1000, 1/1000, 1/1000⟩ ⟨none, none, true⟩
        [(⟨some "SELL", some (1/2), some 7⟩, true),
         (⟨some "SELL", some (1/2), some 7⟩, true)]).2).length = 2 ∧
    ¬ ((TradeEngine.processFills ⟨1/1000, 1/1000, 1/1000⟩ ⟨none, none, true⟩
        [(⟨some "SELL", some (1/2), some 7⟩, true),
         (⟨some "SELL", some (1/2), some 7⟩, true)]).2).length ≤ 1 := by
  constructor
  · rfl
  · decide

/-- Claim C2, amended: every delivery of a fill event produces exactly
one hedge submission — `on_binance_fill` performs no deduplication, so
`N` deliveries of fills (duplicates of the same `order_id` included)
produce exactly `N` hedge submissions. -/
theorem C2_one_submission_per_delivery (st : ArbStrategy) (s : EngineState)
    (fills : List (FillMsg × Bool)) :
    ((TradeEngine.processFills st s fills).2).length = fills.length := by
  induction fills generalizing s with
  | nil => rfl
  | cons f rest ih =>
    obtain ⟨m, ok⟩ := f
    simp [TradeEngine.processFills, TradeEngine.on_binance_fill, ih]

/-- Claim C3 counterexample: when the hedge submission fails
(`create_order` raises), the handler leaves the engine state exactly as
it was — the failed hedge intent is not retained anywhere in engine
state — and the escalation is a log entry at the same `error` level the
main loop uses for ordinary operational errors. -/
theorem C3_counterexample :
    (TradeEngine.on_binance_fill ⟨1/1000, 1/1000, 1/1000⟩ ⟨none, none, true⟩
        ⟨some "SELL", some (1/2), some 7⟩ false).1 = ⟨none, none, true⟩ ∧
    (TradeEngine.on_binance_fill ⟨1/1000, 1/1000, 1/1000⟩ ⟨none, none, true⟩
        ⟨some "SELL", some (1/2), some 7⟩ false).2.2
      = [⟨.info, .fillReceived⟩, ⟨.info, .sendingHedge⟩, ⟨.error, .hedgeFatal⟩] ∧
    (LogEntry.mk .error .hedgeFatal).level
      = (LogEntry.mk .error .mainLoopError).level := by
  refine ⟨rfl, rfl, rfl⟩

/-- Claim C3, amended: on hedge failure the handler catches the
exception (it does not propagate), emits a `logger.error` entry with the
`FATAL`-prefixed message — the same severity level as ordinary
main-loop errors, with no separate alert path (`# Raise alert system
here` is an unimplemented comment) — and leaves the engine state
unchanged: the failed hedge intent is dropped, not retained. -/
theorem C3_failed_hedge_dropped (st : ArbStrategy) (s : EngineState)
    (f : FillMsg) :
    (TradeEngine.on_binance_fill st s f false).1 = s ∧
    (TradeEngine.on_binance_fill st s f false).2.2
      = [⟨.info, .fillReceived⟩, ⟨.info, .sendingHedge⟩, ⟨.error, .hedgeFatal⟩] := by
  exact ⟨rfl, rfl⟩

/-- Claim C5 counterexample: in a state with no order resting on the ask
side, `manage_binance_order` emits no `Place` action (its body is
`pass`), contradicting the claimed `Place(target_price)` result. -/
theorem C5_counterexample :
    (EngineState.mk none none true).active_ask = none ∧
    (TradeEngine.manage_binance_order ⟨none, none, true⟩ "SELL"
        (1003/10) "ask").2 = [] ∧
    (TradeEngine.manage_binance_order ⟨none, none, true⟩ "SELL"
        (1003/10) "ask").2 ≠ [OrderAction.place (1003/10)] := by
  refine ⟨rfl, rfl, by decide⟩

/-- Claim C5, amended: `manage_binance_order` is an unimplemented
placeholder: for every state, side, target price and order key it
performs no placement, replacement or cancellation and leaves the state
unchanged; in particular calling it twice with the same target while an
order is live yields no action both times. -/
theorem C5_manage_order_placeholder (s : EngineState) (side : String)
    (price : ℚ) (key : String) :
    TradeEngine.manage_binance_order s side price key = (s, []) := rfl

/-- Claim C6: for a well-formed fill event (side field present and equal
to `BUY` or `SELL`, filled quantity present), the derived hedge order
has the opposite side and the same quantity. -/
theorem C6_hedge_opposite_side_same_qty (st : ArbStrategy) (f : FillMsg)
    (q : ℚ) (hq : f.l = some q) :
    (f.S = some "BUY" →
      st.get_hedge_order_details f = ⟨"SELL", q⟩) ∧
    (f.S = some "SELL" →
      st.get_hedge_order_details f = ⟨"BUY", q⟩) := by
  constructor
  · intro h
    simp [ArbStrategy.get_hedge_order_details, h, hq]
  · intro h
    simp [ArbStrategy.get_hedge_order_details, h, hq]

/-- Witness for C6: a fill on the sell side with quantity `0.5` yields a
`BUY` hedge of quantity `0.5`. -/
theorem C6_hedge_opposite_side_same_qty_witness :
    ArbStrategy.get_hedge_order_details ⟨1/1000, 1/1000, 1/1000⟩
      ⟨some "SELL", some (1/2), some 7⟩ = ⟨"BUY", 1/2⟩ :=
  (C6_hedge_opposite_side_same_qty ⟨1/1000, 1/1000, 1/1000⟩
    ⟨some "SELL", some (1/2), some 7⟩ (1/2) rfl).2 rfl

/-- Claim C8: a refresh cycle that sees a missing order book, or a book
with an empty bid or ask side, is skipped: no quote targets are
computed, no order action is attempted, and the engine state is left
unchanged (and the function returns normally, so the cycle is not
fatal). -/
theorem C8_empty_book_skips_cycle (st : ArbStrategy) (s : EngineState)
    (ob : Option Orderbook)
    (h : ob = none ∨ ∃ b, ob = some b ∧ (b.bids = [] ∨ b.asks = [])) :
    TradeEngine.update_quotes st s ob = (s, none, []) := by
  rcases h with rfl | ⟨b, rfl, hb⟩
  · rfl
  · obtain ⟨bids, asks⟩ := b
    rcases hb with h | h
    · simp only at h
      subst h
      rfl
    · simp only at h
      subst h
      cases bids with
      | nil => rfl
      | cons x xs => rfl

/-- Witness for C8: a book with bids but no asks is skipped. -/
theorem C8_empty_book_skips_cycle_witness :
    TradeEngine.update_quotes ⟨1/1000, 1/1000, 1/1000⟩ ⟨none, none, true⟩
      (some ⟨[(100, 1)], []⟩) = (⟨none, none, true⟩, none, []) :=
  C8_empty_book_skips_cycle ⟨1/1000, 1/1000, 1/1000⟩ ⟨none, none, true⟩
    (some ⟨[(100, 1)], []⟩) (Or.inr ⟨⟨[(100, 1)], []⟩, rfl, Or.inr rfl⟩)

/-- Claim C9: an error raised inside one iteration of the quote-refresh
loop never terminates the loop or the engine: for every schedule of
cycle outcomes (any subset of cycles raising) and every `n`, after `n`
iterations the loop has attempted all `n` cycles and the engine is still
running. -/
theorem C9_loop_survives_cycle_errors (st : ArbStrategy)
    (init : EngineState) (outcomes : Nat → CycleOutcome) (n : Nat) :
    (TradeEngine.run_loop st init outcomes n).iterations = n ∧
    (TradeEngine.run_loop st init outcomes n).engine.is_running = true := by
  induction n with
  | zero => exact ⟨rfl, rfl⟩
  | succ k ih =>
    obtain ⟨hiter, hrun⟩ := ih
    cases ho : outcomes k with
    | ok ob =>
      refine ⟨?_, ?_⟩ <;>
        simp [TradeEngine.run_loop, TradeEngine.loop_step, ho, hrun, hiter,
          update_quotes_state_eq]
    | raised =>
      refine ⟨?_, ?_⟩ <;>
        simp [TradeEngine.run_loop, TradeEngine.loop_step, ho, hrun, hiter]

/-- Claim C10: `get_hedge_order_details` is total on fill-message
records and defaults silently: any side field other than the exact
string `BUY` (absence included) yields hedge side `BUY`, and an absent
filled-quantity field yields quantity `0`. -/
theorem C10_malformed_fill_defaults (st : ArbStrategy) (f : FillMsg) :
    (f.S ≠ some "BUY" → (st.get_hedge_order_details f).side = "BUY") ∧
    (f.l = none → (st.get_hedge_order_details f).quantity = 0) := by
  constructor
  · intro h
    simp [ArbStrategy.get_hedge_order_details, h]
  · intro h
    simp [ArbStrategy.get_hedge_order_details, h]

/-- Witness for C10: the empty fill message (all fields absent) yields a
`BUY` hedge of quantity `0`. -/
theorem C10_malformed_fill_defaults_witness :
    (ArbStrategy.get_hedge_order_details ⟨1/1000, 1/1000, 1/1000⟩
        ⟨none, none, none⟩).side = "BUY" ∧
    (ArbStrategy.get_hedge_order_details ⟨1/1000, 1/1000, 1/1000⟩
        ⟨none, none, none⟩).quantity = 0 :=
  ⟨(C10_malformed_fill_defaults ⟨1/1000, 1/1000, 1/1000⟩
      ⟨none, none, none⟩).1 (by simp),
   (C10_malformed_fill_defaults ⟨1/1000, 1/1000, 1/1000⟩
      ⟨none, none, none⟩).2 rfl⟩
